import Mathlib

/-!
Shallow embedding of the node-aware RPC gateway and the seed-node prober of
`bts_tools/views.py`, together with theorems settling the spec claims.

The embedding follows the source:
* `find_node` / `find_local_node` embed the registry lookups (views.py:165-175);
* `json_rpc_call` embeds the `/rpc` gateway handler (views.py:201-238), with the
  underlying client and the node's locally-answerable methods abstracted as
  oracles in a `GatewayEnv`, and the list of issued network calls returned
  explicitly so that "zero underlying calls" is a statement about the model;
* `set_rpchost` embeds the main-node switch (views.py:356-367);
* `check_seed_status` embeds the TCP probe (views.py:458-472) over an abstract
  socket behaviour, returning the status together with whether `s.close()` ran;
* `recordedAt` / `seed_rows` embed the thread fan-out and the result table of
  `view_seed_nodes` (views.py:542-572): each probe unit has a finish time, the
  shared `seed_status` dict is read at `readTime`, and a unit's result is
  visible exactly when it finished by then.
-/

namespace BtsTools

/-- One registered blockchain client node, as used by the views: identity
fields, credentials and the localhost flag (`rpc.nodes` entries). -/
structure Node where
  bts_type : String
  rpc_host : String
  rpc_port : Nat
  name : String
  rpc_user : String
  rpc_password : String
  is_localhost : Bool
  deriving DecidableEq

/-- The `'{}:{}'.format(node.rpc_host, node.rpc_port)` string used by
`find_node` when comparing against the `host` argument. -/
def node_host_port (n : Node) : String :=
  n.rpc_host ++ ":" ++ toString n.rpc_port

/-- The match condition of the loop body of `find_node` (views.py:167). -/
def node_matches (n : Node) (bt host nm : String) : Bool :=
  n.bts_type == bt && node_host_port n == host && n.name == nm

/-- Embedding of `find_node` (views.py:165-169): linear search over the
registered nodes, `ValueError` rendered as `Except.error` with the message the
source formats. -/
def find_node (nodes : List Node) (bt host nm : String) : Except String Node :=
  match nodes with
  | [] => .error ("Node not found: " ++ bt ++ "/" ++ host ++ "/" ++ nm)
  | n :: rest =>
    if node_matches n bt host nm then .ok n else find_node rest bt host nm

/-- Rendering of the port popped from the envelope: `wallet_port` may be
absent, in which case Python formats `None`. -/
def portStr : Option Nat → String
  | none => "None"
  | some p => toString p

/-- The match condition of the loop body of `find_local_node` (views.py:173). -/
def local_matches (n : Node) (port : Option Nat) : Bool :=
  n.is_localhost && some n.rpc_port == port

/-- Embedding of `find_local_node` (views.py:171-175). -/
def find_local_node (nodes : List Node) (port : Option Nat) : Except String Node :=
  match nodes with
  | [] => .error ("Node not found: localhost:" ++ portStr port)
  | n :: rest =>
    if local_matches n port then .ok n else find_local_node rest port

/-- Embedding of `set_rpchost` (views.py:356-367): on a successful `find_node`
the main-node reference is replaced, on `ValueError` the handler logs and
passes, leaving the reference untouched; either way it redirects to `url`. -/
def set_rpchost (nodes : List Node) (main : Option Node)
    (bt host nm url : String) : Option Node × String :=
  match find_node nodes bt host nm with
  | .ok n => (some n, url)
  | .error _ => (main, url)

/-- The incoming JSON-RPC envelope as `json_rpc_call` consumes it:
`c['id']`, `c['params'][0]` (wallet id), `c['params'][1]` (method),
`c['params'][2]` (argument list), and the three popped fields `wallet_port`,
`proxy_user`, `proxy_password`. -/
structure RPCEnvelope where
  id : String
  wallet_id : String
  method : String
  args : List String
  wallet_port : Option Nat
  proxy_user : String
  proxy_password : String
  deriving DecidableEq

/-- The error object of a response envelope: `{'message': ...}`. -/
structure ErrObj where
  message : String
  deriving DecidableEq

/-- A JSON-RPC response dict: optional `id`, `result` and `error` keys. Used
both for the raw response of the underlying client and for the envelope the
gateway returns. -/
structure RPCResult where
  id : Option String
  result : Option String
  error : Option ErrObj
  deriving DecidableEq

/-- The statement `result['id'] = c['id']` (views.py:230): whatever id the
dict held is overwritten by the request id. -/
def setId (r : RPCResult) (i : String) : RPCResult :=
  { r with id := some i }

/-- One call issued on the underlying network RPC channel
(`rpc.rpc_call('localhost', port, user, password, method, *params)`,
views.py:227-228). -/
structure NetCall where
  port : Option Nat
  user : String
  password : String
  method : String
  args : List String
  deriving DecidableEq

/-- Outcome of the underlying client call: a raw response dict, or a
`core.RPCError` carrying a message. -/
inductive RPCOutcome where
  | ok (raw : RPCResult)
  | rpcError (msg : String)

/-- The gateway's external collaborators: the underlying client RPC channel
(`rpc.rpc_call`) and the node's own implementations of the intercepted
methods (`getattr(node, method)(*params)`). -/
structure GatewayEnv where
  netcall : Option Nat → String → String → String → List String → RPCOutcome
  localCall : Node → String → List String → String

/-- The fixed allow-list of intercepted method names (views.py:221-223). -/
def interceptedMethods : List String :=
  ["is_signing_key_active", "network_get_info", "network_get_connected_peers",
   "network_get_potential_peers", "network_get_advanced_parameters",
   "network_set_advanced_parameters"]

/-- Embedding of `json_rpc_call` (views.py:201-238). Returns the response
envelope together with the list of calls issued on the underlying network RPC
channel. The source pops `wallet_port`, `proxy_user` and `proxy_password`
from the dict before dispatch; here the popped credentials are simply never
read, and the credentials used on the channel are the resolved node's. -/
def json_rpc_call (env : GatewayEnv) (nodes : List Node) (c : RPCEnvelope) :
    RPCResult × List NetCall :=
  match find_local_node nodes c.wallet_port with
  | .error _ =>
    ({ id := some c.id, result := none,
       error := some { message :=
         "Could not find active node on port " ++ portStr c.wallet_port } }, [])
  | .ok node =>
    if interceptedMethods.contains c.method then
      (setId { id := none, result := some (env.localCall node c.method c.args),
               error := none } c.id, [])
    else
      match env.netcall c.wallet_port node.rpc_user node.rpc_password c.method c.args with
      | .ok raw =>
        (setId raw c.id,
         [{ port := c.wallet_port, user := node.rpc_user,
            password := node.rpc_password, method := c.method, args := c.args }])
      | .rpcError msg =>
        ({ id := some c.id, result := none, error := some { message := msg } },
         [{ port := c.wallet_port, user := node.rpc_user,
            password := node.rpc_password, method := c.method, args := c.args }])

/-- Outcome of `s.connect((host, int(port)))` under `s.settimeout(3)`
(views.py:461-463): it succeeds, raises a `ConnectionError`, or raises
`socket.timeout`. -/
inductive ConnectOutcome where
  | connected
  | connectionError
  | timedOut
  deriving DecidableEq

/-- Outcome of `s.recv(256)` on the connected socket (views.py:468): data
arrives within the timeout (possibly `b''` on a clean peer close), the read
times out, or the peer resets the connection (an error the source does not
catch). -/
inductive RecvOutcome where
  | received (numBytes : Nat)
  | timedOut
  | connReset
  deriving DecidableEq

/-- Abstract behaviour of one seed endpoint towards the probing socket. -/
structure SeedBehavior where
  connect : ConnectOutcome
  recv : RecvOutcome
  deriving DecidableEq

/-- The connect/read timeout `s.settimeout(3)` (views.py:461). -/
def connect_timeout : Nat := 3

/-- The read bound `s.recv(256)` (views.py:468). -/
def recv_bound : Nat := 256

/-- Embedding of `check_seed_status` (views.py:458-472). The first component
is the status the function returns (`none` when an uncaught exception, e.g. a
connection reset during `recv`, propagates instead of a return); the second
records whether `s.close()` was executed before leaving the function. In the
source, `s.close()` appears only after the `recv` try-block, so only the
`online` path runs it. -/
def check_seed_status (b : SeedBehavior) : Option String × Bool :=
  match b.connect with
  | .connectionError => (some "offline", false)
  | .timedOut => (some "offline", false)
  | .connected =>
    match b.recv with
    | .timedOut => (some "stuck", false)
    | .connReset => (none, false)
    | .received _ => (some "online", true)

/-- One thread of `view_seed_nodes` probing one seed: the endpoint's socket
behaviour, and the time at which the thread's `seed_status[s] = ...`
assignment lands (`none` when the thread never finishes, e.g. the probe hangs
inside an un-timed syscall). -/
structure ProbeUnit where
  behavior : SeedBehavior
  finishTime : Option Nat
  deriving DecidableEq

/-- The per-thread join deadline `t.join(timeout=5)` (views.py:558). -/
def join_deadline : Nat := 5

/-- Contents of the shared `seed_status` dict for `seed` at the moment the
result table is built (time `readTime`): the probing thread's status is
visible iff the thread finished by then and its probe returned a status
rather than raising. `t.join(timeout=5)` does not kill the thread, so a write
landing after the join deadline but before `readTime` is visible. -/
def recordedAt (units : String → ProbeUnit) (readTime : Nat) (seed : String) :
    Option String :=
  match (units seed).finishTime with
  | none => none
  | some t =>
    if t ≤ readTime then (check_seed_status (units seed).behavior).1 else none

/-- The status cell built for one seed (views.py:567-572):
`seed_status.get(seed)` compared against `'online'` and `'stuck'`, with
`seed_status.get(seed, 'offline')` rendered in the danger button otherwise. -/
def status_btn (recorded : Option String) : String :=
  if recorded == some "online" then
    "<div class=\x22btn btn-xs btn-success\x22>online</div>"
  else if recorded == some "stuck" then
    "<div class=\x22btn btn-xs btn-warning\x22>stuck</div>"
  else
    "<div class=\x22btn btn-xs btn-danger\x22>" ++ recorded.getD "offline" ++ "</div>"

/-- The result table of `view_seed_nodes` (views.py:567-572): one
`(seed, status cell)` row per entry of `seed_nodes`, in list order. -/
def seed_rows (recorded : String → Option String) (seeds : List String) :
    List (String × String) :=
  seeds.map (fun seed => (seed, status_btn (recorded seed)))

/-- The full prober pipeline: fan out one unit per seed, read the shared dict
at `readTime`, and build the table. -/
def view_seed_status (units : String → ProbeUnit) (readTime : Nat)
    (seeds : List String) : List (String × String) :=
  seed_rows (recordedAt units readTime) seeds

/-! ### Registry lemmas -/

theorem node_matches_iff (n : Node) (bt host nm : String) :
    node_matches n bt host nm = true ↔
      (n.bts_type = bt ∧ node_host_port n = host ∧ n.name = nm) := by
  simp [node_matches, Bool.and_eq_true, and_assoc]

theorem local_matches_iff (n : Node) (port : Option Nat) :
    local_matches n port = true ↔
      (n.is_localhost = true ∧ some n.rpc_port = port) := by
  simp [local_matches, Bool.and_eq_true]

theorem find_node_ok {nodes : List Node} {bt host nm : String} {n : Node}
    (h : find_node nodes bt host nm = .ok n) :
    n ∈ nodes ∧ node_matches n bt host nm = true := by
  induction nodes with
  | nil => simp [find_node] at h
  | cons m rest ih =>
    rw [find_node] at h
    cases hm : node_matches m bt host nm with
    | true =>
      rw [hm] at h
      simp at h
      subst h
      exact ⟨List.mem_cons_self m rest, hm⟩
    | false =>
      rw [hm] at h
      simp at h
      obtain ⟨h₁, h₂⟩ := ih h
      exact ⟨List.mem_cons_of_mem m h₁, h₂⟩

theorem find_node_not_found {nodes : List Node} {bt host nm : String}
    (h : ∀ n ∈ nodes, node_matches n bt host nm = false) :
    find_node nodes bt host nm =
      .error ("Node not found: " ++ bt ++ "/" ++ host ++ "/" ++ nm) := by
  induction nodes with
  | nil => rfl
  | cons m rest ih =>
    rw [find_node, h m (List.mem_cons_self m rest)]
    simp
    exact ih (fun n hn => h n (List.mem_cons_of_mem m hn))

theorem find_node_exists {nodes : List Node} {bt host nm : String}
    (h : ∃ n ∈ nodes, node_matches n bt host nm = true) :
    ∃ m, find_node nodes bt host nm = .ok m := by
  induction nodes with
  | nil => simp at h
  | cons m rest ih =>
    rw [find_node]
    cases hm : node_matches m bt host nm with
    | true => exact ⟨m, by simp⟩
    | false =>
      apply ih
      obtain ⟨n, hn, hmatch⟩ := h
      rcases List.mem_cons.mp hn with rfl | hn'
      · rw [hm] at hmatch; exact absurd hmatch (by simp)
      · exact ⟨n, hn', hmatch⟩

theorem find_local_node_ok {nodes : List Node} {port : Option Nat} {n : Node}
    (h : find_local_node nodes port = .ok n) :
    n ∈ nodes ∧ local_matches n port = true := by
  induction nodes with
  | nil => simp [find_local_node] at h
  | cons m rest ih =>
    rw [find_local_node] at h
    cases hm : local_matches m port with
    | true =>
      rw [hm] at h
      simp at h
      subst h
      exact ⟨List.mem_cons_self m rest, hm⟩
    | false =>
      rw [hm] at h
      simp at h
      obtain ⟨h₁, h₂⟩ := ih h
      exact ⟨List.mem_cons_of_mem m h₁, h₂⟩

theorem find_local_node_not_found {nodes : List Node} {port : Option Nat}
    (h : ∀ n ∈ nodes, local_matches n port = false) :
    find_local_node nodes port =
      .error ("Node not found: localhost:" ++ portStr port) := by
  induction nodes with
  | nil => rfl
  | cons m rest ih =>
    rw [find_local_node, h m (List.mem_cons_self m rest)]
    simp
    exact ih (fun n hn => h n (List.mem_cons_of_mem m hn))

theorem find_local_node_none (nodes : List Node) :
    find_local_node nodes none = .error "Node not found: localhost:None" := by
  have h : ∀ n ∈ nodes, local_matches n none = false := by
    intro n _
    simp [local_matches]
  exact find_local_node_not_found h

/-! ### Gateway branch lemmas -/

theorem json_rpc_call_no_node {env : GatewayEnv} {nodes : List Node}
    {c : RPCEnvelope} {e : String}
    (h : find_local_node nodes c.wallet_port = .error e) :
    json_rpc_call env nodes c =
      ({ id := some c.id, result := none,
         error := some { message :=
           "Could not find active node on port " ++ portStr c.wallet_port } },
       []) := by
  unfold json_rpc_call
  rw [h]

theorem json_rpc_call_intercepted {env : GatewayEnv} {nodes : List Node}
    {c : RPCEnvelope} {node : Node}
    (h : find_local_node nodes c.wallet_port = .ok node)
    (hm : c.method ∈ interceptedMethods) :
    json_rpc_call env nodes c =
      ({ id := some c.id, result := some (env.localCall node c.method c.args),
         error := none }, []) := by
  unfold json_rpc_call
  rw [h]
  simp [hm, setId]

theorem json_rpc_call_forward_ok {env : GatewayEnv} {nodes : List Node}
    {c : RPCEnvelope} {node : Node} {raw : RPCResult}
    (h : find_local_node nodes c.wallet_port = .ok node)
    (hm : c.method ∉ interceptedMethods)
    (hn : env.netcall c.wallet_port node.rpc_user node.rpc_password c.method c.args
            = .ok raw) :
    json_rpc_call env nodes c =
      (setId raw c.id,
       [{ port := c.wallet_port, user := node.rpc_user,
          password := node.rpc_password, method := c.method, args := c.args }]) := by
  unfold json_rpc_call
  rw [h]
  simp [hm, hn, setId]

theorem json_rpc_call_forward_err {env : GatewayEnv} {nodes : List Node}
    {c : RPCEnvelope} {node : Node} {msg : String}
    (h : find_local_node nodes c.wallet_port = .ok node)
    (hm : c.method ∉ interceptedMethods)
    (hn : env.netcall c.wallet_port node.rpc_user node.rpc_password c.method c.args
            = .rpcError msg) :
    json_rpc_call env nodes c =
      ({ id := some c.id, result := none, error := some { message := msg } },
       [{ port := c.wallet_port, user := node.rpc_user,
          password := node.rpc_password, method := c.method, args := c.args }]) := by
  unfold json_rpc_call
  rw [h]
  simp [hm, hn, setId]

/-! ### Concrete fixtures used by the witnesses -/

/-- Fixture node: a localhost `bts` client on port 1234. -/
def nodeA : Node :=
  { bts_type := "bts", rpc_host := "localhost", rpc_port := 1234,
    name := "nodeA", rpc_user := "alice", rpc_password := "s3cret",
    is_localhost := true }

/-- Fixture registry holding only `nodeA`. -/
def registryA : List Node := [nodeA]

/-- Fixture environment: the underlying channel answers every method except
`failme`, whose call raises a `core.RPCError` with message `upstream boom`;
the node's local implementations answer with a tagged string. Note the raw
response of the channel carries its own embedded id `99`. -/
def envA : GatewayEnv :=
  { netcall := fun _ _ _ m _ =>
      if m == "failme" then .rpcError "upstream boom"
      else .ok { id := some "99", result := some "forwarded", error := none },
    localCall := fun n m _ => n.name ++ " answers " ++ m }

/-- Fixture envelope targeting an intercepted method on port 1234. -/
def cIntercept : RPCEnvelope :=
  { id := "7", wallet_id := "0", method := "network_get_info", args := [],
    wallet_port := some 1234, proxy_user := "", proxy_password := "" }

/-- Fixture envelope targeting a forwarded method on port 1234. -/
def cForward : RPCEnvelope :=
  { id := "8", wallet_id := "0", method := "info", args := [],
    wallet_port := some 1234, proxy_user := "", proxy_password := "" }

/-- Fixture envelope whose forwarded call fails upstream. -/
def cFail : RPCEnvelope :=
  { id := "9", wallet_id := "0", method := "failme", args := [],
    wallet_port := some 1234, proxy_user := "", proxy_password := "" }

/-- Fixture envelope targeting a port with no registered node. -/
def cNoNode : RPCEnvelope :=
  { id := "3", wallet_id := "0", method := "info", args := [],
    wallet_port := some 9999, proxy_user := "", proxy_password := "" }

/-- Fixture envelope with no `wallet_port` field. -/
def cNoPort : RPCEnvelope :=
  { id := "4", wallet_id := "0", method := "info", args := [],
    wallet_port := none, proxy_user := "", proxy_password := "" }

/-! ### Claims about the gateway and the registry -/

/-- C1: for every envelope whose port resolves to a registered local node,
a method on the six-name allow-list is dispatched to that node's own
implementation with zero calls issued on the underlying network RPC channel,
and every other method is forwarded through the RPC call path (exactly the
one underlying call, carrying the node's credentials, appears on the
channel). -/
theorem claim_C1 (env : GatewayEnv) (nodes : List Node) (c : RPCEnvelope)
    (node : Node) (h : find_local_node nodes c.wallet_port = .ok node) :
    (c.method ∈ interceptedMethods →
      json_rpc_call env nodes c =
        ({ id := some c.id, result := some (env.localCall node c.method c.args),
           error := none }, []))
    ∧ (c.method ∉ interceptedMethods →
      (json_rpc_call env nodes c).2 =
        [{ port := c.wallet_port, user := node.rpc_user,
           password := node.rpc_password, method := c.method, args := c.args }]) := by
  constructor
  · intro hm
    exact json_rpc_call_intercepted h hm
  · intro hm
    cases hn : env.netcall c.wallet_port node.rpc_user node.rpc_password c.method c.args with
    | ok raw => rw [json_rpc_call_forward_ok h hm hn]
    | rpcError msg => rw [json_rpc_call_forward_err h hm hn]

/-- C1 witness: on the fixture registry, `network_get_info` is answered by
`nodeA`'s own implementation with no underlying call, while `info` issues
exactly one underlying call with `nodeA`'s credentials. -/
theorem claim_C1_witness :
    json_rpc_call envA registryA cIntercept =
      ({ id := some "7", result := some "nodeA answers network_get_info",
         error := none }, [])
    ∧ (json_rpc_call envA registryA cForward).2 =
      [{ port := some 1234, user := "alice", password := "s3cret",
         method := "info", args := [] }] := by
  constructor
  · exact (claim_C1 envA registryA cIntercept nodeA rfl).1 (by decide)
  · exact (claim_C1 envA registryA cForward nodeA rfl).2 (by decide)

/-- C2: the response envelope always carries the request's id: on the success
path the underlying response's own embedded id is discarded and replaced by
the request id, and both error paths set the request id as well. -/
theorem claim_C2 (env : GatewayEnv) (nodes : List Node) (c : RPCEnvelope) :
    (json_rpc_call env nodes c).1.id = some c.id := by
  cases h : find_local_node nodes c.wallet_port with
  | error e => rw [json_rpc_call_no_node h]
  | ok node =>
    by_cases hm : c.method ∈ interceptedMethods
    · rw [json_rpc_call_intercepted h hm]
    · cases hn : env.netcall c.wallet_port node.rpc_user node.rpc_password c.method c.args with
      | ok raw => rw [json_rpc_call_forward_ok h hm hn]; rfl
      | rpcError msg => rw [json_rpc_call_forward_err h hm hn]

/-- C3: when no registered localhost node matches the target port (also when
the envelope has no `wallet_port` field, in which case the port is `None`),
the gateway returns the `Could not find active node on port <port>` error
envelope; when a forwarded call fails with an upstream RPC error it returns
the error's message under the request id; both failures are returned as
envelopes by the total dispatch function, not thrown. -/
theorem claim_C3 (env : GatewayEnv) (nodes : List Node)
    (c₁ c₂ c₃ : RPCEnvelope) (node : Node) (msg : String)
    (h₁ : ∀ n ∈ nodes, local_matches n c₁.wallet_port = false)
    (h₂ : c₂.wallet_port = none)
    (h₃ : find_local_node nodes c₃.wallet_port = .ok node)
    (h₄ : c₃.method ∉ interceptedMethods)
    (h₅ : env.netcall c₃.wallet_port node.rpc_user node.rpc_password c₃.method c₃.args
            = .rpcError msg) :
    json_rpc_call env nodes c₁ =
      ({ id := some c₁.id, result := none,
         error := some { message :=
           "Could not find active node on port " ++ portStr c₁.wallet_port } }, [])
    ∧ json_rpc_call env nodes c₂ =
      ({ id := some c₂.id, result := none,
         error := some { message := "Could not find active node on port None" } }, [])
    ∧ (json_rpc_call env nodes c₃).1 =
      { id := some c₃.id, result := none, error := some { message := msg } } := by
  refine ⟨?_, ?_, ?_⟩
  · exact json_rpc_call_no_node (find_local_node_not_found h₁)
  · have he : find_local_node nodes c₂.wallet_port = .error "Node not found: localhost:None" := by
      rw [h₂]
      exact find_local_node_none nodes
    rw [json_rpc_call_no_node he, h₂]
    rfl
  · rw [json_rpc_call_forward_err h₃ h₄ h₅]

/-- C3 witness: port 9999 and a missing `wallet_port` both yield the
not-found envelope on the fixture registry, and the failing `failme` call
yields the upstream message under the request id. -/
theorem claim_C3_witness :
    json_rpc_call envA registryA cNoNode =
      ({ id := some "3", result := none,
         error := some { message := "Could not find active node on port 9999" } }, [])
    ∧ json_rpc_call envA registryA cNoPort =
      ({ id := some "4", result := none,
         error := some { message := "Could not find active node on port None" } }, [])
    ∧ (json_rpc_call envA registryA cFail).1 =
      { id := some "9", result := none, error := some { message := "upstream boom" } } := by
  have h := claim_C3 envA registryA cNoNode cNoPort cFail nodeA "upstream boom"
    (by decide) rfl rfl (by decide) rfl
  exact h

/-- C4: the popped forwarding-credential fields never influence dispatch or
response — two envelopes differing only in `proxy_user`/`proxy_password`
produce identical responses and identical underlying calls — and every call
issued on the underlying channel carries the resolved node's stored
`rpc_user`/`rpc_password`, not caller-supplied credentials. -/
theorem claim_C4 (env : GatewayEnv) (nodes : List Node) (c : RPCEnvelope)
    (u₁ p₁ u₂ p₂ : String) :
    json_rpc_call env nodes { c with proxy_user := u₁, proxy_password := p₁ } =
      json_rpc_call env nodes { c with proxy_user := u₂, proxy_password := p₂ }
    ∧ (∀ node, find_local_node nodes c.wallet_port = .ok node →
        ∀ nc ∈ (json_rpc_call env nodes c).2,
          nc.user = node.rpc_user ∧ nc.password = node.rpc_password) := by
  constructor
  · rfl
  · intro node h nc hnc
    by_cases hm : c.method ∈ interceptedMethods
    · rw [json_rpc_call_intercepted h hm] at hnc
      simp at hnc
    · cases hn : env.netcall c.wallet_port node.rpc_user node.rpc_password c.method c.args with
      | ok raw =>
        rw [json_rpc_call_forward_ok h hm hn] at hnc
        simp at hnc
        subst hnc
        exact ⟨rfl, rfl⟩
      | rpcError msg =>
        rw [json_rpc_call_forward_err h hm hn] at hnc
        simp at hnc
        subst hnc
        exact ⟨rfl, rfl⟩

/-- C4 witness: changing only the proxy credentials of the fixture forwarded
envelope leaves the gateway's behaviour identical, and the underlying call
recorded for it carries `nodeA`'s stored credentials. -/
theorem claim_C4_witness :
    json_rpc_call envA registryA
        { cForward with proxy_user := "mallory", proxy_password := "pw1" } =
      json_rpc_call envA registryA
        { cForward with proxy_user := "", proxy_password := "pw2" }
    ∧ ({ port := some 1234, user := "alice", password := "s3cret",
         method := "info", args := [] } : NetCall).user = nodeA.rpc_user
    ∧ ({ port := some 1234, user := "alice", password := "s3cret",
         method := "info", args := [] } : NetCall).password = nodeA.rpc_password := by
  have h := claim_C4 envA registryA cForward "mallory" "pw1" "" "pw2"
  refine ⟨h.1, ?_, ?_⟩
  · exact (h.2 nodeA rfl
      { port := some 1234, user := "alice", password := "s3cret",
        method := "info", args := [] } (by decide)).1
  · exact (h.2 nodeA rfl
      { port := some 1234, user := "alice", password := "s3cret",
        method := "info", args := [] } (by decide)).2

/-- C7: switching the main node to a target matching no registered node
leaves the main-node reference exactly as it was (the `ValueError` is logged
and swallowed), while a matching target replaces it with the found node. -/
theorem claim_C7 (nodes : List Node) (main : Option Node)
    (bt host nm url : String) :
    ((∀ n ∈ nodes, node_matches n bt host nm = false) →
      set_rpchost nodes main bt host nm url = (main, url))
    ∧ (∀ n, find_node nodes bt host nm = .ok n →
      set_rpchost nodes main bt host nm url = (some n, url)) := by
  constructor
  · intro h
    unfold set_rpchost
    rw [find_node_not_found h]
  · intro n h
    unfold set_rpchost
    rw [h]

/-- C7 witness: on the fixture registry an unknown target keeps `nodeA` as
the main node, and the matching target installs `nodeA`. -/
theorem claim_C7_witness :
    set_rpchost registryA (some nodeA) "bts" "remote:42" "ghost" "/info" =
      (some nodeA, "/info")
    ∧ set_rpchost registryA none "bts" "localhost:1234" "nodeA" "/info" =
      (some nodeA, "/info") := by
  constructor
  · exact (claim_C7 registryA (some nodeA) "bts" "remote:42" "ghost" "/info").1 (by decide)
  · exact (claim_C7 registryA none "bts" "localhost:1234" "nodeA" "/info").2 nodeA rfl

/-- C8: `find_node` returns only registered nodes whose chain type,
`host:port` string and name equal the arguments exactly, succeeds whenever
some registered node matches, and fails with the `Node not found` error when
none does; `find_local_node` returns only registered localhost nodes with the
given rpc port and fails with `Node not found` otherwise. -/
theorem claim_C8 (nodes : List Node) (bt host nm : String) (port : Option Nat) :
    (∀ n, find_node nodes bt host nm = .ok n →
        n ∈ nodes ∧ n.bts_type = bt ∧ node_host_port n = host ∧ n.name = nm)
    ∧ ((∀ n ∈ nodes, node_matches n bt host nm = false) →
        find_node nodes bt host nm =
          .error ("Node not found: " ++ bt ++ "/" ++ host ++ "/" ++ nm))
    ∧ ((∃ n ∈ nodes, node_matches n bt host nm = true) →
        ∃ m, find_node nodes bt host nm = .ok m)
    ∧ (∀ n, find_local_node nodes port = .ok n →
        n ∈ nodes ∧ n.is_localhost = true ∧ some n.rpc_port = port)
    ∧ ((∀ n ∈ nodes, local_matches n port = false) →
        find_local_node nodes port =
          .error ("Node not found: localhost:" ++ portStr port)) := by
  refine ⟨?_, find_node_not_found, find_node_exists, ?_, find_local_node_not_found⟩
  · intro n h
    obtain ⟨hmem, hmatch⟩ := find_node_ok h
    obtain ⟨h₁, h₂, h₃⟩ := (node_matches_iff n bt host nm).mp hmatch
    exact ⟨hmem, h₁, h₂, h₃⟩
  · intro n h
    obtain ⟨hmem, hmatch⟩ := find_local_node_ok h
    obtain ⟨h₁, h₂⟩ := (local_matches_iff n port).mp hmatch
    exact ⟨hmem, h₁, h₂⟩

/-- C8 witness: on the fixture registry the matching lookup returns `nodeA`
with all fields equal, and absent keys produce the formatted `Node not
found` errors. -/
theorem claim_C8_witness :
    (nodeA ∈ registryA ∧ nodeA.bts_type = "bts"
      ∧ node_host_port nodeA = "localhost:1234" ∧ nodeA.name = "nodeA")
    ∧ find_node registryA "muse" "x:1" "nope" = .error "Node not found: muse/x:1/nope"
    ∧ (nodeA ∈ registryA ∧ nodeA.is_localhost = true ∧ some nodeA.rpc_port = some 1234)
    ∧ find_local_node registryA (some 9999) = .error "Node not found: localhost:9999" := by
  refine ⟨?_, ?_, ?_, ?_⟩
  · exact (claim_C8 registryA "bts" "localhost:1234" "nodeA" (some 1234)).1 nodeA rfl
  · exact (claim_C8 registryA "muse" "x:1" "nope" (some 1234)).2.1 (by decide)
  · exact (claim_C8 registryA "bts" "localhost:1234" "nodeA" (some 1234)).2.2.2.1 nodeA rfl
  · exact (claim_C8 registryA "bts" "h" "n" (some 9999)).2.2.2.2 (by decide)

/-! ### Claims about the seed prober -/

/-- C5: the probe classifies a connect failure or connect timeout as
`offline`, a successful connection whose bounded read times out as `stuck`,
and a successful connection whose read returns promptly as `online`; the
connect timeout is 3 seconds and the read is bounded by 256 bytes. -/
theorem claim_C5 (b : SeedBehavior) :
    connect_timeout = 3 ∧ recv_bound = 256
    ∧ ((b.connect = .connectionError ∨ b.connect = .timedOut) →
        (check_seed_status b).1 = some "offline")
    ∧ (∀ nb, b.connect = .connected → b.recv = .received nb →
        (check_seed_status b).1 = some "online")
    ∧ (b.connect = .connected → b.recv = .timedOut →
        (check_seed_status b).1 = some "stuck") := by
  refine ⟨rfl, rfl, ?_, ?_, ?_⟩
  · rintro (h | h) <;> simp [check_seed_status, h]
  · intro nb h₁ h₂
    simp [check_seed_status, h₁, h₂]
  · intro h₁ h₂
    simp [check_seed_status, h₁, h₂]

/-- C5 witness: the four concrete socket behaviours evaluate to the claimed
statuses. -/
theorem claim_C5_witness :
    (check_seed_status { connect := .connectionError, recv := .timedOut }).1 = some "offline"
    ∧ (check_seed_status { connect := .timedOut, recv := .timedOut }).1 = some "offline"
    ∧ (check_seed_status { connect := .connected, recv := .received 42 }).1 = some "online"
    ∧ (check_seed_status { connect := .connected, recv := .timedOut }).1 = some "stuck" := by
  refine ⟨?_, ?_, ?_, ?_⟩
  · exact (claim_C5 { connect := .connectionError, recv := .timedOut }).2.2.1 (Or.inl rfl)
  · exact (claim_C5 { connect := .timedOut, recv := .timedOut }).2.2.1 (Or.inr rfl)
  · exact (claim_C5 { connect := .connected, recv := .received 42 }).2.2.2.1 42 rfl rfl
  · exact (claim_C5 { connect := .connected, recv := .timedOut }).2.2.2.2 rfl rfl

/-- C9 counterexample: on the read-timeout path the probe returns the
terminal status `stuck` without having executed `s.close()` — in the source
the `close` statement sits after the `recv` try-block, so a `return 'stuck'`
(and likewise a `return 'offline'`) skips it. -/
theorem claim_C9_counterexample :
    (check_seed_status { connect := .connected, recv := .timedOut }).1 = some "stuck"
    ∧ (check_seed_status { connect := .connected, recv := .timedOut }).2 = false :=
  ⟨rfl, rfl⟩

/-- C9 amended: the probe closes the socket before returning exactly on the
`online` transition; the `offline` and `stuck` paths return without calling
`close`. -/
theorem claim_C9_amended (b : SeedBehavior) :
    (check_seed_status b).2 = true ↔ (check_seed_status b).1 = some "online" := by
  obtain ⟨conn, recv⟩ := b
  cases conn <;> cases recv <;> simp [check_seed_status]

/-- Fixture probe unit: handshake succeeds but the status write lands one
tick after the join deadline. -/
def lateOnlineUnit : ProbeUnit :=
  { behavior := { connect := .connected, recv := .received 16 },
    finishTime := some (join_deadline + 1) }

/-- Fixture unit map sending every seed to `lateOnlineUnit`. -/
def lateOnlineUnits : String → ProbeUnit := fun _ => lateOnlineUnit

/-- Fixture probe unit: the read times out (terminal `stuck`) and the status
write lands three ticks after the join deadline. -/
def lateStuckUnit : ProbeUnit :=
  { behavior := { connect := .connected, recv := .timedOut },
    finishTime := some (join_deadline + 3) }

/-- Fixture unit map sending every seed to `lateStuckUnit`. -/
def lateStuckUnits : String → ProbeUnit := fun _ => lateStuckUnit

/-- Fixture unit map: the first seed's probe finishes quickly with a
handshake, the second seed's probe never finishes. -/
def mixedUnits : String → ProbeUnit :=
  fun s =>
    if s == "a:1" then
      { behavior := { connect := .connected, recv := .received 8 }, finishTime := some 2 }
    else
      { behavior := { connect := .timedOut, recv := .timedOut }, finishTime := none }

/-- Fixture unit map where no probe ever finishes. -/
def hangUnits : String → ProbeUnit :=
  fun _ => { behavior := { connect := .connected, recv := .timedOut }, finishTime := none }

/-- C6 counterexample: an endpoint whose probe has not reached a terminal
state by the join deadline (the status write lands one tick later) is
reported `online`, not `offline`: `t.join(timeout=5)` abandons the wait but
the thread's later write to the shared `seed_status` dict is still read when
the result table is built. -/
theorem claim_C6_counterexample :
    lateOnlineUnit.finishTime = some (join_deadline + 1)
    ∧ view_seed_status lateOnlineUnits (join_deadline + 2) ["seed-a:1776"] =
        [("seed-a:1776", status_btn (some "online"))]
    ∧ view_seed_status lateOnlineUnits (join_deadline + 2) ["seed-a:1776"] ≠
        [("seed-a:1776", status_btn none)] := by
  refine ⟨rfl, rfl, ?_⟩
  decide

/-- C6 amended: the prober produces exactly one row per endpoint, preserves
the caller-supplied endpoint order, is total, and reports `offline` for
every endpoint whose probe result has not been recorded by the time the
result table is assembled; an endpoint recorded after the join deadline but
before assembly is reported with its recorded status instead. -/
theorem claim_C6_amended (units : String → ProbeUnit) (readTime : Nat)
    (seeds : List String) :
    (view_seed_status units readTime seeds).length = seeds.length
    ∧ (view_seed_status units readTime seeds).map Prod.fst = seeds
    ∧ (∀ i, i < seeds.length →
        (view_seed_status units readTime seeds).getD i ("", "") =
          (seeds.getD i "",
           status_btn (recordedAt units readTime (seeds.getD i ""))))
    ∧ status_btn none = "<div class=\x22btn btn-xs btn-danger\x22>offline</div>" := by
  refine ⟨?_, ?_, ?_, rfl⟩
  · simp [view_seed_status, seed_rows]
  · simp [view_seed_status, seed_rows, Function.comp_def]
  · intro i hi
    simp [view_seed_status, seed_rows, List.getD, List.getElem?_map,
      List.getElem?_eq_getElem hi]

/-- C6 amended witness: a two-endpoint batch where the first probe finished
and the second never did — one row per endpoint in order, the second
defaulting to offline. -/
theorem claim_C6_amended_witness :
    (view_seed_status mixedUnits 6 ["a:1", "b:2"]).length = 2
    ∧ (view_seed_status mixedUnits 6 ["a:1", "b:2"]).map Prod.fst = ["a:1", "b:2"]
    ∧ (view_seed_status mixedUnits 6 ["a:1", "b:2"]).getD 1 ("", "") =
        ("b:2", status_btn (recordedAt mixedUnits 6 "b:2"))
    ∧ status_btn none = "<div class=\x22btn btn-xs btn-danger\x22>offline</div>" := by
  have h := claim_C6_amended mixedUnits 6 ["a:1", "b:2"]
  exact ⟨h.1, h.2.1, h.2.2.1 1 (by decide), h.2.2.2⟩

/-- C10 counterexample: a unit reaching its terminal state three ticks after
the join deadline still has its result merged into the batch output — the
endpoint is reported `stuck`, not `offline`, contradicting the claim that a
late result is discarded and never merged. -/
theorem claim_C10_counterexample :
    lateStuckUnit.finishTime = some (join_deadline + 3)
    ∧ recordedAt lateStuckUnits (join_deadline + 4) "seed-b:2001" = some "stuck"
    ∧ view_seed_status lateStuckUnits (join_deadline + 4) ["seed-b:2001"] =
        [("seed-b:2001", status_btn (some "stuck"))]
    ∧ status_btn (some "stuck") ≠ status_btn none := by
  refine ⟨rfl, rfl, rfl, ?_⟩
  decide

/-- C10 amended: a unit's result is visible in the batch output iff its
status write landed by the time the output is assembled: a unit that never
finishes, or finishes after assembly, contributes nothing and its endpoint
defaults to `offline`; a unit finishing by assembly time — even after the
5-second join deadline, since `join(timeout=5)` does not kill the thread —
has its result merged. -/
theorem claim_C10_amended (units : String → ProbeUnit) (readTime : Nat)
    (seed : String) :
    ((units seed).finishTime = none → recordedAt units readTime seed = none)
    ∧ (∀ t, (units seed).finishTime = some t → readTime < t →
        recordedAt units readTime seed = none)
    ∧ (∀ t, (units seed).finishTime = some t → t ≤ readTime →
        recordedAt units readTime seed = (check_seed_status (units seed).behavior).1)
    ∧ (recordedAt units readTime seed = none →
        status_btn (recordedAt units readTime seed) =
          "<div class=\x22btn btn-xs btn-danger\x22>offline</div>") := by
  refine ⟨?_, ?_, ?_, ?_⟩
  · intro h
    simp [recordedAt, h]
  · intro t h ht
    have hle : ¬ t ≤ readTime := by omega
    simp [recordedAt, h, hle]
  · intro t h ht
    simp [recordedAt, h, ht]
  · intro h
    rw [h]
    rfl

/-- C10 amended witness: the late-stuck unit is invisible at assembly time 7
(reported offline) yet merged at assembly time 9, and a hanging unit is
never recorded. -/
theorem claim_C10_amended_witness :
    recordedAt lateStuckUnits (join_deadline + 2) "seed-c:1" = none
    ∧ recordedAt lateStuckUnits (join_deadline + 4) "seed-c:1" = some "stuck"
    ∧ status_btn (recordedAt lateStuckUnits (join_deadline + 2) "seed-c:1") =
        "<div class=\x22btn btn-xs btn-danger\x22>offline</div>"
    ∧ recordedAt hangUnits 100 "seed-d:1" = none := by
  have h₂ := claim_C10_amended lateStuckUnits (join_deadline + 2) "seed-c:1"
  have h₄ := claim_C10_amended lateStuckUnits (join_deadline + 4) "seed-c:1"
  have hn : recordedAt lateStuckUnits (join_deadline + 2) "seed-c:1" = none :=
    h₂.2.1 (join_deadline + 3) rfl (by decide)
  refine ⟨hn, ?_, h₂.2.2.2 hn, (claim_C10_amended hangUnits 100 "seed-d:1").1 rfl⟩
  exact (h₄.2.2.1 (join_deadline + 3) rfl (by decide)).trans rfl

end BtsTools
